import Mathlib

/-!
Verification of the OSM parcel map component (`src/unnamed/part_000`).

The component is a Leaflet-based React widget.  We model its numeric data
(coordinates, zoom levels) with exact rationals `ℚ`, its mutable refs and
React state with an explicit `MapState` record, and each event handler /
helper closure as a pure state-transition function.  Remote (Supabase)
queries are modelled by an explicit `Query` record; a transition returns
the list of queries it issued, and the outcome of an issued query is an
input of type `Except String (List ParcelRow)` (the `{ data, error }`
result of the Supabase call).
-/

namespace ParcelMap

/-- A geographic point as Leaflet stores it (`{ lat, lng }`). -/
structure LatLng where
  lat : ℚ
  lng : ℚ
  deriving DecidableEq, Repr

instance : Inhabited LatLng := ⟨⟨0, 0⟩⟩

/-- A GeoJSON geometry payload.  The component treats it as opaque: it is
only ever null-checked (`p.geometry` truthiness), never inspected, so a
single-constructor type suffices; `Option GeoJson` models a nullable
geometry column. -/
inductive GeoJson where
  | obj
  deriving DecidableEq, Repr

/-- A row of the `parcel_info3` table as selected by the component
(type `ParcelRow` in the source). -/
structure ParcelRow where
  id : Int
  geometry : Option GeoJson
  zoning : Option String
  usedesc : Option String
  lat : Option ℚ
  lon : Option ℚ
  deriving DecidableEq, Repr

/-- The zoom threshold below which no fetch happens (`FETCH_ZOOM_THRESHOLD = 16`). -/
def FETCH_ZOOM_THRESHOLD : ℚ := 16

/-- The zoom threshold below which nothing is rendered (`DRAW_ZOOM_THRESHOLD = 16`). -/
def DRAW_ZOOM_THRESHOLD : ℚ := 16

/-- The denominator used by `pointInPolygon`: the JS expression
`((yj - yi) || 1e-12)` substitutes `1e-12` when `yj - yi` is zero. -/
def pipDen (yi yj : ℚ) : ℚ :=
  if yj - yi = 0 then (1 : ℚ) / 1000000000000 else yj - yi

/-- One iteration of the `pointInPolygon` loop body: given the current
vertex `p` (index `i`) and the previous vertex `q` (index `j`), toggle
`inside` when the edge crosses the horizontal ray. -/
def pipStep (lon lat : ℚ) (p q : LatLng) (inside : Bool) : Bool :=
  let xi := p.lng
  let yi := p.lat
  let xj := q.lng
  let yj := q.lat
  let intersect :=
    (decide (yi > lat) != decide (yj > lat)) &&
      decide (lon < (xj - xi) * (lat - yi) / pipDen yi yj + xi)
  if intersect then !inside else inside

/-- The edge pairs visited by the loop
`for (let i = 0, j = ring.length - 1; i < ring.length; j = i++)`:
the pair at position `i` is `(ring[i], ring[j])` with `j = i - 1`,
wrapping to the last vertex at `i = 0`. -/
def ringEdges (ring : List LatLng) : List (LatLng × LatLng) :=
  ring.zip (ring.getLastD default :: ring)

/-- The `pointInPolygon(lon, lat, polygonLatLngs)` ray-casting test of the
source, translated edge-for-edge. -/
def pointInPolygon (lon lat : ℚ) (ring : List LatLng) : Bool :=
  (ringEdges ring).foldl (fun inside e => pipStep lon lat e.1 e.2 inside) false

/-- Modelled from the spec: "counting crossings of a horizontal ray
extended from the test point".  An edge is crossed exactly when one
endpoint is strictly above the ray's latitude and the horizontal line
through the test point meets the edge strictly to the right of the point
(exact rational division, no epsilon). -/
def edgeCrossesRay (lon lat : ℚ) (e : LatLng × LatLng) : Bool :=
  (decide (e.1.lat > lat) != decide (e.2.lat > lat)) &&
    decide (lon < (e.2.lng - e.1.lng) * (lat - e.1.lat) / (e.2.lat - e.1.lat) + e.1.lng)

/-- Modelled from the spec: the ray-casting inside test — the point is
inside exactly when the horizontal ray crosses an odd number of ring
edges ("toggle inside/outside on each crossing"). -/
def rayCastingInside (lon lat : ℚ) (ring : List LatLng) : Bool :=
  ((ringEdges ring).countP (edgeCrossesRay lon lat)) % 2 == 1

lemma pipStep_eq_xor (lon lat : ℚ) (p q : LatLng) (b : Bool) :
    pipStep lon lat p q b = xor (edgeCrossesRay lon lat (p, q)) b := by
  unfold pipStep edgeCrossesRay pipDen
  by_cases h : q.lat - p.lat = 0
  · have hpq : p.lat = q.lat := by linarith [sub_eq_zero.mp h]
    simp [hpq]
  · simp only [h, if_false]
    cases hc : ((decide (p.lat > lat) != decide (q.lat > lat)) &&
        decide (lon < (q.lng - p.lng) * (lat - p.lat) / (q.lat - p.lat) + p.lng)) <;>
      simp [hc]

lemma pip_foldl_eq_parity (lon lat : ℚ) (l : List (LatLng × LatLng)) (b : Bool) :
    l.foldl (fun inside e => pipStep lon lat e.1 e.2 inside) b
      = xor ((l.countP (edgeCrossesRay lon lat)) % 2 == 1) b := by
  induction l generalizing b with
  | nil => simp
  | cons a t ih =>
    have hstep : pipStep lon lat a.1 a.2 b = xor (edgeCrossesRay lon lat a) b := by
      rw [pipStep_eq_xor]
    rw [List.foldl_cons, hstep, ih, List.countP_cons]
    rcases Nat.even_or_odd (t.countP (edgeCrossesRay lon lat)) with he | ho
    · obtain ⟨k, hk⟩ := he
      cases hca : edgeCrossesRay lon lat a <;> cases b <;>
        simp [hca, hk, Nat.add_mod, Nat.mul_mod_right, ← two_mul]
    · obtain ⟨k, hk⟩ := ho
      cases hca : edgeCrossesRay lon lat a <;> cases b <;>
        simp [hca, hk, Nat.add_mod, Nat.mul_mod_right]

lemma pointInPolygon_eq_rayCasting (lon lat : ℚ) (ring : List LatLng) :
    pointInPolygon lon lat ring = rayCastingInside lon lat ring := by
  unfold pointInPolygon rayCastingInside
  rw [pip_foldl_eq_parity]
  cases h : ((ringEdges ring).countP (edgeCrossesRay lon lat)) % 2 == 1 <;> simp [h]

/-- A concrete square ring (lat 0..10, lng 0..10) used as a sanity check. -/
def squareRing : List LatLng :=
  [⟨0, 0⟩, ⟨0, 10⟩, ⟨10, 10⟩, ⟨10, 0⟩]

/-- A concrete nonconvex (L-shaped) simple ring used as a sanity check. -/
def lShapeRing : List LatLng :=
  [⟨0, 0⟩, ⟨0, 10⟩, ⟨4, 10⟩, ⟨4, 4⟩, ⟨10, 4⟩, ⟨10, 0⟩]

/-- The viewport bounding rectangle (`map.getBounds()`). -/
structure Bounds where
  south : ℚ
  north : ℚ
  west : ℚ
  east : ℚ
  deriving DecidableEq, Repr

/-- A remote Supabase query as the component builds it: table, projected
columns, strict lower/upper bounds on `lat` and `lon` (`.gt` / `.lt`), and
a row cap (`.limit`). -/
structure Query where
  table : String
  columns : List String
  latGt : ℚ
  latLt : ℚ
  lonGt : ℚ
  lonLt : ℚ
  maxRows : Nat
  deriving DecidableEq, Repr

/-- The component's mutable state: React state variables and their mirror
refs collapsed into single fields (the code keeps each pair in lockstep),
the Leaflet layers represented by their contents, and the DOM state of the
custom draw button. -/
structure MapState where
  zoom : ℚ
  bounds : Bounds
  parcels : List ParcelRow
  rendered : List ParcelRow
  count : Nat
  loading : Bool
  errorMsg : Option String
  showZoomMessage : Bool
  isDrawing : Bool
  hasUserPolygon : Bool
  userPolygon : Option (List LatLng)
  drawingLayer : Option (List LatLng)
  drawPoints : List LatLng
  drawButtonDisabled : Bool
  deriving DecidableEq, Repr

/-- The `updateDrawButtonState` helper: the button is disabled exactly when
the zoom advisory is showing, a finalized polygon exists, or drawing is in
progress. -/
def updateDrawButtonState (s : MapState) : MapState :=
  { s with drawButtonDisabled := s.showZoomMessage || s.hasUserPolygon || s.isDrawing }

/-- The per-parcel filter test inside `redrawParcels`: a parcel is dropped
exactly when a filter ring is present, both centroid coordinates are
non-null, and `pointInPolygon` rejects the centroid. -/
def parcelVisible (filterRing : Option (List LatLng)) (p : ParcelRow) : Bool :=
  match filterRing, p.lat, p.lon with
  | some ring, some plat, some plon => pointInPolygon plon plat ring
  | _, _, _ => true

/-- The contents the render loop of `redrawParcels` puts on the parcels
layer: nothing below the draw threshold, otherwise every cached parcel with
non-null geometry that passes the centroid filter. -/
def renderList (zoom : ℚ) (filterRing : Option (List LatLng))
    (parcels : List ParcelRow) : List ParcelRow :=
  if zoom < DRAW_ZOOM_THRESHOLD then []
  else parcels.filter (fun p => p.geometry.isSome && parcelVisible filterRing p)

/-- The `redrawParcels` closure: clear the layer, stop below the draw
threshold, otherwise redraw the cached parcels through the optional
centroid filter taken from the finalized user polygon. -/
def redrawParcels (s : MapState) : MapState :=
  { s with rendered := renderList s.zoom s.userPolygon s.parcels }

/-- The exact query `fetchParcelsForView` issues for a viewport. -/
def mkViewQuery (b : Bounds) : Query :=
  { table := "parcel_info3"
    columns := ["id", "geometry", "zoning", "usedesc", "lat", "lon"]
    latGt := b.south
    latLt := b.north
    lonGt := b.west
    lonLt := b.east
    maxRows := 300 }

/-- The `fetchParcelsForView` closure.  `resp` is the settled result of the
Supabase call (consumed only on the paths that issue the query); the second
component of the result lists the queries issued during the call. -/
def fetchParcelsForView (s : MapState) (resp : Except String (List ParcelRow)) :
    MapState × List Query :=
  if s.zoom < FETCH_ZOOM_THRESHOLD then
    (updateDrawButtonState
      { s with showZoomMessage := true, parcels := [], rendered := [], count := 0 }, [])
  else
    let s1 := updateDrawButtonState { s with showZoomMessage := false }
    if s1.isDrawing then (s1, [])
    else
      let s2 := { s1 with loading := true, errorMsg := none }
      let q := mkViewQuery s.bounds
      match resp with
      | .error msg =>
          ({ s2 with errorMsg := some msg, parcels := [], rendered := [], count := 0,
                     loading := false }, [q])
      | .ok data =>
          let cleaned := data.filter (fun p => p.geometry.isSome)
          let s3 := { s2 with parcels := cleaned, count := cleaned.length }
          ({ redrawParcels s3 with loading := false }, [q])

/-- The `finishDrawing` closure: no-op unless drawing; with fewer than 3
captured vertices discard the preview and the vertex list; otherwise take
at most the first 4 vertices, replace any existing finalized polygon,
remove the preview, clear the vertex list, and redraw from the cache. -/
def finishDrawing (s : MapState) : MapState :=
  if !s.isDrawing then s
  else
    let s1 := updateDrawButtonState { s with isDrawing := false }
    if s1.drawPoints.length < 3 then
      { s1 with drawingLayer := none, drawPoints := [] }
    else
      let finalPoints :=
        if s1.drawPoints.length > 4 then s1.drawPoints.take 4 else s1.drawPoints
      let s2 := updateDrawButtonState
        { s1 with userPolygon := some finalPoints, hasUserPolygon := true }
      let s3 := { s2 with drawingLayer := none, drawPoints := [] }
      redrawParcels s3

/-- The `startDrawing` closure: only from an eligible idle state, enter
drawing mode with an empty vertex list and no stale preview. -/
def startDrawing (s : MapState) : MapState :=
  if s.showZoomMessage || s.hasUserPolygon || s.isDrawing then s
  else
    updateDrawButtonState
      { s with isDrawing := true, drawPoints := [], drawingLayer := none }

/-- The map `click` handler: while drawing, append the clicked point to the
vertex list, update (or create) the preview shape, and auto-finish when the
list reaches 4 points. -/
def mapClick (s : MapState) (pt : LatLng) : MapState :=
  if !s.isDrawing then s
  else
    let pts := s.drawPoints ++ [pt]
    let s1 := { s with drawPoints := pts, drawingLayer := some pts }
    if s1.drawPoints.length ≥ 4 then finishDrawing s1 else s1

/-- The map `dblclick` handler: finish drawing early. -/
def mapDblclick (s : MapState) : MapState :=
  if s.isDrawing then finishDrawing s else s

/-- The map `zoomend` handler: recompute the advisory state and the button
state; above the threshold re-fetch, below it clear the rendered layer. -/
def zoomendHandler (s : MapState) (resp : Except String (List ParcelRow)) :
    MapState × List Query :=
  let showMsg := decide (s.zoom < FETCH_ZOOM_THRESHOLD)
  let s1 := updateDrawButtonState { s with showZoomMessage := showMsg }
  if !showMsg then fetchParcelsForView s1 resp
  else ({ s1 with rendered := [] }, [])

/-- A zoom change end-to-end: the map takes the new zoom, `zoomend` fires,
and the debounced `moveend` handler then runs `fetchParcelsForView`. -/
def zoomChange (s : MapState) (newZoom : ℚ) (resp : Except String (List ParcelRow)) :
    MapState × List Query :=
  let p1 := zoomendHandler { s with zoom := newZoom } resp
  let p2 := fetchParcelsForView p1.1 resp
  (p2.1, p1.2 ++ p2.2)

/-- The `handleDeletePolygon` handler: drop the finalized polygon and any
preview, clear the vertex list, leave drawing mode, redraw (now
unfiltered), and re-enable the draw button. -/
def handleDeletePolygon (s : MapState) : MapState :=
  let s1 := { s with userPolygon := none, drawingLayer := none, drawPoints := [],
                     isDrawing := false, hasUserPolygon := false }
  let s2 := redrawParcels s1
  { s2 with drawButtonDisabled := false }

/-- Whether a stored row satisfies a query's strict bounding-box predicate
(`.gt`/`.lt` on `lat` and `lon`; a null coordinate fails a comparison). -/
def rowInBounds (q : Query) (r : ParcelRow) : Bool :=
  match r.lat, r.lon with
  | some la, some lo =>
      decide (q.latGt < la) && decide (la < q.latLt) &&
        decide (q.lonGt < lo) && decide (lo < q.lonLt)
  | _, _ => false

/-- The remote store's semantics for a query: the matching rows, capped at
the query's row limit. -/
def runQuery (q : Query) (rows : List ParcelRow) : List ParcelRow :=
  (rows.filter (rowInBounds q)).take q.maxRows

/-- A concrete viewport used in witnesses. -/
def sampleBounds : Bounds := { south := 33, north := 34, west := -113, east := -112 }

/-- A concrete parcel row with geometry and centroid coordinates. -/
def sampleParcel : ParcelRow :=
  { id := 1, geometry := some GeoJson.obj, zoning := some "R-5",
    usedesc := some "SINGLE FAMILY", lat := some ((67 : ℚ) / 2),
    lon := some ((-225 : ℚ) / 2) }

/-- A concrete parcel row whose geometry column is null. -/
def nullGeomParcel : ParcelRow :=
  { id := 2, geometry := none, zoning := none, usedesc := none,
    lat := some ((67 : ℚ) / 2), lon := some ((-225 : ℚ) / 2) }

/-- A concrete component state at zoom 14 (below both thresholds). -/
def lowZoomState : MapState :=
  { zoom := 14, bounds := sampleBounds, parcels := [sampleParcel],
    rendered := [sampleParcel], count := 1, loading := false, errorMsg := none,
    showZoomMessage := false, isDrawing := false, hasUserPolygon := false,
    userPolygon := none, drawingLayer := none, drawPoints := [],
    drawButtonDisabled := false }

/-- A concrete component state at zoom 17 (above both thresholds). -/
def highZoomState : MapState := { lowZoomState with zoom := 17 }

/-- A concrete drawing-mode state with three captured vertices. -/
def drawState3 : MapState :=
  { highZoomState with
    isDrawing := true
    drawPoints := [⟨1, 1⟩, ⟨1, 2⟩, ⟨2, 2⟩]
    drawButtonDisabled := true }

/-- A concrete state holding a finalized filter polygon. -/
def finalizedState : MapState :=
  { highZoomState with userPolygon := some squareRing, hasUserPolygon := true }

/-- C1: `pointInPolygon` agrees, on every ring and every test point, with
the exact ray-casting inside test (odd crossing parity of the horizontal
ray, computed with exact rational division) — which is precisely the test
the spec names for strict interior points of a simple polygon — and it
returns `false` on the empty ring.  Concrete checks: a strictly interior
point of a convex square ring and of a nonconvex L-shaped ring yields
`true`, strictly exterior points yield `false`. -/
theorem C1_pointInPolygon_ray_casting :
    (∀ lon lat ring, pointInPolygon lon lat ring = rayCastingInside lon lat ring) ∧
    (∀ lon lat, pointInPolygon lon lat [] = false) ∧
    pointInPolygon 5 5 squareRing = true ∧
    pointInPolygon 20 5 squareRing = false ∧
    pointInPolygon 2 2 lShapeRing = true ∧
    pointInPolygon 8 8 lShapeRing = false := by
  refine ⟨pointInPolygon_eq_rayCasting, fun lon lat => rfl, ?_, ?_, ?_, ?_⟩ <;>
    norm_num [pointInPolygon, ringEdges, squareRing, lShapeRing, pipStep, pipDen]

/-- C9: the denominator `pointInPolygon` divides by is never zero — on a
degenerate edge with equal latitudes it is the substituted epsilon
`1e-12` — and the function is a pure total function, hence deterministic:
identical arguments give identical results. -/
theorem C9_pointInPolygon_no_div_zero :
    (∀ yi yj : ℚ, pipDen yi yj ≠ 0) ∧
    (∀ yi yj : ℚ, yi = yj → pipDen yi yj = 1 / 1000000000000) ∧
    (∀ lon lat ring, pointInPolygon lon lat ring = pointInPolygon lon lat ring) := by
  refine ⟨?_, ?_, fun _ _ _ => rfl⟩
  · intro yi yj
    unfold pipDen
    split
    · norm_num
    · assumption
  · intro yi yj h
    simp [pipDen, h]

/-- Witness for C9 at the concrete degenerate edge latitudes `yi = yj = 3`. -/
theorem C9_witness :
    (3 : ℚ) = 3 ∧ pipDen 3 3 = 1 / 1000000000000 :=
  ⟨rfl, C9_pointInPolygon_no_div_zero.2.1 3 3 rfl⟩

/-- C3: below the fetch threshold, `fetchParcelsForView` sets the zoom
advisory, empties the parcel cache, clears the rendered layer, resets the
count to 0, and issues no remote query. -/
theorem C3_fetch_below_threshold (s : MapState) (resp : Except String (List ParcelRow))
    (h : s.zoom < FETCH_ZOOM_THRESHOLD) :
    (fetchParcelsForView s resp).1.showZoomMessage = true ∧
    (fetchParcelsForView s resp).1.parcels = [] ∧
    (fetchParcelsForView s resp).1.rendered = [] ∧
    (fetchParcelsForView s resp).1.count = 0 ∧
    (fetchParcelsForView s resp).2 = [] := by
  simp [fetchParcelsForView, updateDrawButtonState, h]

/-- Witness for C3 at the concrete zoom-14 state. -/
theorem C3_witness :
    lowZoomState.zoom < FETCH_ZOOM_THRESHOLD ∧
    ((fetchParcelsForView lowZoomState (Except.ok [])).1.showZoomMessage = true ∧
     (fetchParcelsForView lowZoomState (Except.ok [])).1.parcels = [] ∧
     (fetchParcelsForView lowZoomState (Except.ok [])).1.rendered = [] ∧
     (fetchParcelsForView lowZoomState (Except.ok [])).1.count = 0 ∧
     (fetchParcelsForView lowZoomState (Except.ok [])).2 = []) := by
  have hz : lowZoomState.zoom < FETCH_ZOOM_THRESHOLD := by
    norm_num [lowZoomState, FETCH_ZOOM_THRESHOLD]
  exact ⟨hz, C3_fetch_below_threshold lowZoomState (Except.ok []) hz⟩

/-- C2: at or above the fetch threshold with drawing inactive,
`fetchParcelsForView` issues exactly one query — selecting
id/geometry/zoning/usedesc/lat/lon for rows with lat strictly between the
viewport's south and north and lon strictly between its west and east,
capped at 300 rows — and on success replaces the cache with exactly the
non-null-geometry rows of the result and redraws; whenever drawing mode is
active, no query is issued. -/
theorem C2_fetch_active_view (s : MapState) (resp : Except String (List ParcelRow))
    (hz : ¬ s.zoom < FETCH_ZOOM_THRESHOLD) (hd : s.isDrawing = false) :
    (fetchParcelsForView s resp).2 =
      [{ table := "parcel_info3"
         columns := ["id", "geometry", "zoning", "usedesc", "lat", "lon"]
         latGt := s.bounds.south
         latLt := s.bounds.north
         lonGt := s.bounds.west
         lonLt := s.bounds.east
         maxRows := 300 }] ∧
    (∀ rows, (runQuery (mkViewQuery s.bounds) rows).length ≤ 300) ∧
    (∀ rows r, r ∈ runQuery (mkViewQuery s.bounds) rows →
       ∃ la lo, r.lat = some la ∧ r.lon = some lo ∧
         s.bounds.south < la ∧ la < s.bounds.north ∧
         s.bounds.west < lo ∧ lo < s.bounds.east) ∧
    (∀ data, resp = Except.ok data →
       (fetchParcelsForView s resp).1.parcels =
         data.filter (fun p => p.geometry.isSome) ∧
       (fetchParcelsForView s resp).1.count =
         (data.filter (fun p => p.geometry.isSome)).length ∧
       (fetchParcelsForView s resp).1.rendered =
         renderList s.zoom s.userPolygon (data.filter (fun p => p.geometry.isSome))) ∧
    (∀ t : MapState, ∀ r : Except String (List ParcelRow),
       t.isDrawing = true → (fetchParcelsForView t r).2 = []) := by
  refine ⟨?_, ?_, ?_, ?_, ?_⟩
  · cases resp <;> simp [fetchParcelsForView, updateDrawButtonState, mkViewQuery, hz, hd]
  · intro rows
    simp [runQuery, mkViewQuery]
  · intro rows r hr
    have hr2 : r ∈ rows.filter (rowInBounds (mkViewQuery s.bounds)) :=
      List.mem_of_mem_take hr
    have hb : rowInBounds (mkViewQuery s.bounds) r = true := (List.mem_filter.mp hr2).2
    unfold rowInBounds at hb
    cases hla : r.lat with
    | none => rw [hla] at hb; simp at hb
    | some la =>
      cases hlo : r.lon with
      | none => rw [hla, hlo] at hb; simp at hb
      | some lo =>
        rw [hla, hlo] at hb
        simp only [mkViewQuery, Bool.and_eq_true, decide_eq_true_eq] at hb
        exact ⟨la, lo, rfl, rfl, hb.1.1.1, hb.1.1.2, hb.1.2, hb.2⟩
  · intro data hresp
    subst hresp
    simp [fetchParcelsForView, updateDrawButtonState, redrawParcels, hz, hd]
  · intro t r htd
    by_cases hzt : t.zoom < FETCH_ZOOM_THRESHOLD <;>
      simp [fetchParcelsForView, updateDrawButtonState, hzt, htd]

/-- Witness for C2 at the concrete zoom-17 state with a response holding
one parcel with geometry and one with null geometry. -/
theorem C2_witness :
    (¬ highZoomState.zoom < FETCH_ZOOM_THRESHOLD) ∧
    highZoomState.isDrawing = false ∧
    (fetchParcelsForView highZoomState
        (Except.ok [sampleParcel, nullGeomParcel])).2 =
      [{ table := "parcel_info3"
         columns := ["id", "geometry", "zoning", "usedesc", "lat", "lon"]
         latGt := highZoomState.bounds.south
         latLt := highZoomState.bounds.north
         lonGt := highZoomState.bounds.west
         lonLt := highZoomState.bounds.east
         maxRows := 300 }] ∧
    (fetchParcelsForView highZoomState
        (Except.ok [sampleParcel, nullGeomParcel])).1.parcels = [sampleParcel] := by
  have hz : ¬ highZoomState.zoom < FETCH_ZOOM_THRESHOLD := by
    norm_num [highZoomState, lowZoomState, FETCH_ZOOM_THRESHOLD]
  have h := C2_fetch_active_view highZoomState
    (Except.ok [sampleParcel, nullGeomParcel]) hz rfl
  refine ⟨hz, rfl, h.1, ?_⟩
  rw [(h.2.2.2.1 [sampleParcel, nullGeomParcel] rfl).1]
  simp [sampleParcel, nullGeomParcel]

/-- C6: when the remote query fails, `fetchParcelsForView` surfaces the
error message, empties the cache, clears the rendered layer, resets the
count to 0, and issues exactly the one failed query (no retry). -/
theorem C6_fetch_failure (s : MapState) (msg : String)
    (hz : ¬ s.zoom < FETCH_ZOOM_THRESHOLD) (hd : s.isDrawing = false) :
    (fetchParcelsForView s (Except.error msg)).1.errorMsg = some msg ∧
    (fetchParcelsForView s (Except.error msg)).1.parcels = [] ∧
    (fetchParcelsForView s (Except.error msg)).1.rendered = [] ∧
    (fetchParcelsForView s (Except.error msg)).1.count = 0 ∧
    (fetchParcelsForView s (Except.error msg)).2 = [mkViewQuery s.bounds] := by
  simp [fetchParcelsForView, updateDrawButtonState, hz, hd]

/-- Witness for C6 at the concrete zoom-17 state with a failing response. -/
theorem C6_witness :
    (¬ highZoomState.zoom < FETCH_ZOOM_THRESHOLD) ∧
    highZoomState.isDrawing = false ∧
    (fetchParcelsForView highZoomState (Except.error "boom")).1.errorMsg = some "boom" ∧
    (fetchParcelsForView highZoomState (Except.error "boom")).1.parcels = [] ∧
    (fetchParcelsForView highZoomState (Except.error "boom")).1.count = 0 := by
  have hz : ¬ highZoomState.zoom < FETCH_ZOOM_THRESHOLD := by
    norm_num [highZoomState, lowZoomState, FETCH_ZOOM_THRESHOLD]
  have h := C6_fetch_failure highZoomState "boom" hz rfl
  exact ⟨hz, rfl, h.1, h.2.1, h.2.2.2.1⟩

/-- C10: on every path of `fetchParcelsForView` that modifies the parcel
cache (below-threshold clear, fetch failure, fetch success), the displayed
count ends up equal to the length of the cached parcel list. -/
theorem C10_count_cache_sync (s : MapState) (resp : Except String (List ParcelRow))
    (h : s.zoom < FETCH_ZOOM_THRESHOLD ∨ s.isDrawing = false) :
    (fetchParcelsForView s resp).1.count =
      (fetchParcelsForView s resp).1.parcels.length := by
  by_cases hz : s.zoom < FETCH_ZOOM_THRESHOLD
  · simp [fetchParcelsForView, updateDrawButtonState, hz]
  · have hd : s.isDrawing = false := h.resolve_left hz
    cases resp <;>
      simp [fetchParcelsForView, updateDrawButtonState, redrawParcels, hz, hd]

/-- Witness for C10 at the concrete zoom-17 state with a successful
response holding one null-geometry row and one kept row. -/
theorem C10_witness :
    (highZoomState.zoom < FETCH_ZOOM_THRESHOLD ∨ highZoomState.isDrawing = false) ∧
    (fetchParcelsForView highZoomState
        (Except.ok [sampleParcel, nullGeomParcel])).1.count =
      (fetchParcelsForView highZoomState
        (Except.ok [sampleParcel, nullGeomParcel])).1.parcels.length :=
  ⟨Or.inr rfl,
   C10_count_cache_sync highZoomState (Except.ok [sampleParcel, nullGeomParcel])
     (Or.inr rfl)⟩

/-- C5: `redrawParcels` renders nothing below the draw threshold; otherwise
it renders exactly the cached parcels with non-null geometry that are not
skipped, a parcel being skipped exactly when a filter ring exists, both
centroid coordinates are non-null, and `pointInPolygon` on the centroid is
false; and it is idempotent for unchanged cache and filter. -/
theorem C5_redrawParcels_spec (s : MapState) :
    (s.zoom < DRAW_ZOOM_THRESHOLD → (redrawParcels s).rendered = []) ∧
    (¬ s.zoom < DRAW_ZOOM_THRESHOLD →
      (redrawParcels s).rendered = s.parcels.filter (fun p =>
        p.geometry.isSome &&
          !(decide (s.userPolygon ≠ none) && p.lat.isSome && p.lon.isSome &&
            !(pointInPolygon (p.lon.getD 0) (p.lat.getD 0) (s.userPolygon.getD []))))) ∧
    redrawParcels (redrawParcels s) = redrawParcels s := by
  refine ⟨?_, ?_, rfl⟩
  · intro h
    simp [redrawParcels, renderList, h]
  · intro h
    simp only [redrawParcels, renderList, if_neg h]
    apply List.filter_congr
    intro p _
    cases hu : s.userPolygon <;> cases hla : p.lat <;> cases hlo : p.lon <;>
      simp [parcelVisible, hu, hla, hlo]

/-- Witness for C5 at the concrete finalized-filter state (zoom 17, square
filter ring): the cached parcel's centroid lies outside the ring, so the
rendered layer is empty. -/
theorem C5_witness :
    (¬ finalizedState.zoom < DRAW_ZOOM_THRESHOLD) ∧
    (redrawParcels finalizedState).rendered =
      finalizedState.parcels.filter (fun p =>
        p.geometry.isSome &&
          !(decide (finalizedState.userPolygon ≠ none) && p.lat.isSome && p.lon.isSome &&
            !(pointInPolygon (p.lon.getD 0) (p.lat.getD 0)
                (finalizedState.userPolygon.getD [])))) ∧
    redrawParcels (redrawParcels finalizedState) = redrawParcels finalizedState := by
  have hz : ¬ finalizedState.zoom < DRAW_ZOOM_THRESHOLD := by
    norm_num [finalizedState, highZoomState, lowZoomState, DRAW_ZOOM_THRESHOLD]
  have h := C5_redrawParcels_spec finalizedState
  exact ⟨hz, h.2.1 hz, h.2.2⟩

/-- C4: `finishDrawing` with fewer than 3 vertices discards the in-progress
polygon and preview, leaving the filter unchanged; with at least 3 it
installs the first at most 4 vertices as the new filter polygon (so every
finalized polygon has 3 or 4 vertices), removes the preview, clears the
vertex list, and redraws from the unchanged in-memory cache; the click
handler auto-finishes at the 4th vertex and keeps the in-progress vertex
list at 3 or fewer points. -/
theorem C4_finishDrawing_spec (s : MapState) (pt : LatLng) (hd : s.isDrawing = true) :
    (s.drawPoints.length < 3 →
      (finishDrawing s).userPolygon = s.userPolygon ∧
      (finishDrawing s).hasUserPolygon = s.hasUserPolygon ∧
      (finishDrawing s).drawingLayer = none ∧
      (finishDrawing s).drawPoints = [] ∧
      (finishDrawing s).isDrawing = false ∧
      (finishDrawing s).rendered = s.rendered ∧
      (finishDrawing s).parcels = s.parcels) ∧
    (3 ≤ s.drawPoints.length →
      (finishDrawing s).userPolygon = some (s.drawPoints.take 4) ∧
      3 ≤ (s.drawPoints.take 4).length ∧ (s.drawPoints.take 4).length ≤ 4 ∧
      (finishDrawing s).hasUserPolygon = true ∧
      (finishDrawing s).drawingLayer = none ∧
      (finishDrawing s).drawPoints = [] ∧
      (finishDrawing s).isDrawing = false ∧
      (finishDrawing s).parcels = s.parcels ∧
      (finishDrawing s).rendered =
        renderList s.zoom (some (s.drawPoints.take 4)) s.parcels) ∧
    (s.drawPoints.length = 3 →
      (mapClick s pt).userPolygon = some (s.drawPoints ++ [pt]) ∧
      (s.drawPoints ++ [pt]).length = 4 ∧
      (mapClick s pt).drawPoints = [] ∧
      (mapClick s pt).isDrawing = false) ∧
    (s.drawPoints.length ≤ 3 → (mapClick s pt).drawPoints.length ≤ 3) := by
  refine ⟨?_, ?_, ?_, ?_⟩
  · intro h
    simp [finishDrawing, updateDrawButtonState, hd, h]
  · intro h
    have hnl : ¬ s.drawPoints.length < 3 := by omega
    have hfp : (if s.drawPoints.length > 4 then s.drawPoints.take 4 else s.drawPoints) =
        s.drawPoints.take 4 := by
      split
      · rfl
      · exact (List.take_of_length_le (by omega)).symm
    refine ⟨?_, ?_, ?_, ?_, ?_, ?_, ?_, ?_, ?_⟩ <;>
      · simp [finishDrawing, updateDrawButtonState, redrawParcels, hd, hnl, hfp,
          List.length_take]
        try omega
  · intro h3
    have h4 : (s.drawPoints ++ [pt]).length = 4 := by simp [h3]
    have hd1 : ¬ ((s.drawPoints ++ [pt]).length < 3) := by omega
    have hgt : ¬ ((s.drawPoints ++ [pt]).length > 4) := by omega
    refine ⟨?_, h4, ?_, ?_⟩ <;>
      simp [mapClick, finishDrawing, updateDrawButtonState, redrawParcels, hd, h4,
        hd1, hgt]
  · intro h
    by_cases h3 : s.drawPoints.length = 3
    · have h4 : (s.drawPoints ++ [pt]).length = 4 := by simp [h3]
      have hd1 : ¬ ((s.drawPoints ++ [pt]).length < 3) := by omega
      have hgt : ¬ ((s.drawPoints ++ [pt]).length > 4) := by omega
      simp [mapClick, finishDrawing, updateDrawButtonState, redrawParcels, hd, h4,
        hd1, hgt]
    · have hns : ¬ 3 ≤ s.drawPoints.length := by omega
      simp [mapClick, hd, hns]
      omega

/-- Witness for C4 at the concrete drawing state with 3 captured vertices:
finishing installs those 3 vertices as the filter polygon. -/
theorem C4_witness :
    drawState3.isDrawing = true ∧
    3 ≤ drawState3.drawPoints.length ∧
    (finishDrawing drawState3).userPolygon = some drawState3.drawPoints ∧
    (finishDrawing drawState3).drawPoints = [] := by
  have h := (C4_finishDrawing_spec drawState3 ⟨5, 5⟩ rfl).2.1 (by
    simp [drawState3, highZoomState, lowZoomState])
  refine ⟨rfl, by simp [drawState3, highZoomState, lowZoomState], ?_, h.2.2.2.2.2.1⟩
  rw [h.1]
  simp [drawState3, highZoomState, lowZoomState]

/-- C7: a zoom change landing below the threshold (the `zoomend` handler
followed by the debounced `moveend` fetch) clears the parcel cache, clears
the rendered layer, resets the count to 0, shows the advisory banner,
disables the draw button, and contacts the remote store with no query. -/
theorem C7_zoom_out_scenario (s : MapState) (newZoom : ℚ)
    (resp : Except String (List ParcelRow)) (h : newZoom < FETCH_ZOOM_THRESHOLD) :
    (zoomChange s newZoom resp).1.parcels = [] ∧
    (zoomChange s newZoom resp).1.rendered = [] ∧
    (zoomChange s newZoom resp).1.count = 0 ∧
    (zoomChange s newZoom resp).1.showZoomMessage = true ∧
    (zoomChange s newZoom resp).1.drawButtonDisabled = true ∧
    (zoomChange s newZoom resp).2 = [] := by
  simp [zoomChange, zoomendHandler, fetchParcelsForView, updateDrawButtonState, h]

/-- Witness for C7: the concrete zoom change from 17 to 14. -/
theorem C7_witness :
    highZoomState.zoom = 17 ∧ (14 : ℚ) < FETCH_ZOOM_THRESHOLD ∧
    (zoomChange highZoomState 14 (Except.ok [])).1.parcels = [] ∧
    (zoomChange highZoomState 14 (Except.ok [])).1.count = 0 ∧
    (zoomChange highZoomState 14 (Except.ok [])).1.showZoomMessage = true ∧
    (zoomChange highZoomState 14 (Except.ok [])).1.drawButtonDisabled = true := by
  have h14 : (14 : ℚ) < FETCH_ZOOM_THRESHOLD := by norm_num [FETCH_ZOOM_THRESHOLD]
  have h := C7_zoom_out_scenario highZoomState 14 (Except.ok []) h14
  exact ⟨rfl, h14, h.1, h.2.2.1, h.2.2.2.1, h.2.2.2.2.1⟩

/-- C8: `handleDeletePolygon` removes the finalized polygon and any preview,
clears the vertex list, forces the state to idle, re-enables the draw
button, triggers an unfiltered redraw, and leaves the parcel cache
unchanged; when zoom is at or above the draw threshold and every cached
parcel has geometry, all cached parcels are rendered again. -/
theorem C8_deletePolygon_spec (s : MapState) :
    (handleDeletePolygon s).userPolygon = none ∧
    (handleDeletePolygon s).drawingLayer = none ∧
    (handleDeletePolygon s).drawPoints = [] ∧
    (handleDeletePolygon s).isDrawing = false ∧
    (handleDeletePolygon s).hasUserPolygon = false ∧
    (handleDeletePolygon s).drawButtonDisabled = false ∧
    (handleDeletePolygon s).parcels = s.parcels ∧
    (handleDeletePolygon s).rendered = renderList s.zoom none s.parcels ∧
    (¬ s.zoom < DRAW_ZOOM_THRESHOLD → (∀ p ∈ s.parcels, p.geometry.isSome) →
      (handleDeletePolygon s).rendered = s.parcels) := by
  refine ⟨rfl, rfl, rfl, rfl, rfl, rfl, rfl, rfl, ?_⟩
  intro hz hall
  show renderList s.zoom none s.parcels = s.parcels
  rw [renderList, if_neg hz]
  apply List.filter_eq_self.mpr
  intro p hp
  simp [parcelVisible, hall p hp]

/-- Witness for C8 at the concrete finalized-filter state: deleting the
polygon re-renders the full one-parcel cache. -/
theorem C8_witness :
    (¬ finalizedState.zoom < DRAW_ZOOM_THRESHOLD) ∧
    (∀ p ∈ finalizedState.parcels, p.geometry.isSome) ∧
    (handleDeletePolygon finalizedState).userPolygon = none ∧
    (handleDeletePolygon finalizedState).rendered = finalizedState.parcels := by
  have hz : ¬ finalizedState.zoom < DRAW_ZOOM_THRESHOLD := by
    norm_num [finalizedState, highZoomState, lowZoomState, DRAW_ZOOM_THRESHOLD]
  have hall : ∀ p ∈ finalizedState.parcels, p.geometry.isSome := by
    intro p hp
    simp [finalizedState, highZoomState, lowZoomState, sampleParcel] at hp
    simp [hp, sampleParcel]
  have h := C8_deletePolygon_spec finalizedState
  exact ⟨hz, hall, h.1, h.2.2.2.2.2.2.2.2 hz hall⟩

end ParcelMap
